import Mathlib

/-!
Shallow embedding of `metriki-tokio` (`src/metriki-tokio/src/lib.rs`), the
tokio-metrics adapter for the metriki metrics registry, together with proofs
of its specified properties.

Modelling conventions:
* Rust `u64` counters are modelled as `ℕ` (no arithmetic is performed on them,
  so overflow never arises).
* Rust `std::time::Duration` is modelled as a number of nanoseconds (`ℕ`);
  `Duration::as_millis` is integer division by 1 000 000, exactly as in the
  Rust standard library (truncating, not rounding).
* `f64` gauge readings are modelled as `ℚ`; every value the code produces is
  either a widened integer (`u64 as f64`, `u128 as f64`) or the externally
  supplied `busy_ratio`, so `ℚ` represents them exactly at realistic
  magnitudes.
* `HashMap<String, Metric>` is modelled as an association list built by an
  insert with HashMap replace-on-collision semantics; the code never relies
  on iteration order.
* The trait-object iterator `dyn Iterator<Item = M>` held behind
  `Arc<Mutex<_>>` is modelled as an `IntervalCursor`: an immutable sequence
  `ℕ → Option M` together with a position.  `next` reads the current position
  and advances it; the mutex makes each such advance atomic, so a run of
  `get_all` calls is modelled by explicit state passing.
* `Iterator::next` returning `None` followed by `.unwrap()` is a Rust panic;
  `get_all` therefore returns `Option (HMap)`, with `none` standing for the
  aborted collection cycle.
-/

/-- Model of `metriki_core::metrics::StaticGauge(f64)`: a constant gauge
holding one numeric reading. -/
structure StaticGauge where
  value : ℚ
deriving DecidableEq, Repr

/-- Model of `metriki_core::metrics::Metric` restricted to the only variant
this crate constructs, `Metric::gauge(Box::new(StaticGauge(v))).into()`. -/
inductive Metric where
  | gauge (g : StaticGauge)
deriving DecidableEq, Repr

/-- Rust `std::time::Duration`, modelled as its total number of
nanoseconds. -/
abbrev Duration := ℕ

/-- Rust `Duration::as_millis`: the WHOLE number of milliseconds, i.e.
nanoseconds divided by 1 000 000 with truncation (`Nat` division). -/
def Duration.as_millis (d : Duration) : ℕ :=
  d / 1000000

/-- Model of `tokio_metrics::TaskMetrics`: the per-task snapshot record.  The
eight counters are the raw `u64` fields read by `get_all`; the three mean
durations are the accessor values of the external crate, carried here as
snapshot data (the external source is assumed correct and out of scope). -/
structure TaskMetrics where
  first_poll_count : ℕ
  instrumented_count : ℕ
  dropped_count : ℕ
  total_poll_count : ℕ
  total_idled_count : ℕ
  total_scheduled_count : ℕ
  total_slow_poll_count : ℕ
  total_fast_poll_count : ℕ
  mean_poll_duration : Duration
  mean_first_poll_delay : Duration
  mean_scheduled_duration : Duration
deriving DecidableEq, Repr

/-- Model of `tokio_metrics::RuntimeMetrics`: the scheduler-wide snapshot
record, with the seven raw counters, the total busy duration, and the
externally computed `busy_ratio()` carried as snapshot data. -/
structure RuntimeMetrics where
  total_polls_count : ℕ
  total_steal_count : ℕ
  total_park_count : ℕ
  num_remote_schedules : ℕ
  total_local_schedule_count : ℕ
  total_overflow_count : ℕ
  total_noop_count : ℕ
  total_busy_duration : Duration
  busy_ratio : ℚ
deriving DecidableEq, Repr

/-- Model of `std::collections::HashMap<String, Metric>` as an association
list (the code never relies on hash order). -/
abbrev HMap := List (String × Metric)

/-- Model of `HashMap::insert`: replace the value when the key is present,
otherwise add the new entry. -/
def HMap.insert (m : HMap) (k : String) (v : Metric) : HMap :=
  if m.any (fun p => p.1 == k) then
    m.map (fun p => if p.1 == k then (k, v) else p)
  else
    m ++ [(k, v)]

/-- Model of `HashMap::get`: the value stored at a key, if any. -/
def HMap.get : HMap → String → Option Metric
  | [], _ => none
  | p :: rest, k => if p.1 == k then some p.2 else HMap.get rest k

/-- Model of `Arc<Mutex<dyn Iterator<Item = M> + Send>>`, the lock-guarded
snapshot iterator (the Interval Cursor of the spec): an underlying sequence
(`none` marking exhaustion) and the current position.  The mutex makes one
`next` call atomic, so sequential state passing models any serialized
schedule of callers. -/
structure IntervalCursor (M : Type) where
  seq : ℕ → Option M
  pos : ℕ

/-- Model of `Iterator::next` under the lock: read the element at the current
position and advance the cursor by one (irreversibly). -/
def IntervalCursor.next {M : Type} (c : IntervalCursor M) :
    Option M × IntervalCursor M :=
  (c.seq c.pos, { c with pos := c.pos + 1 })

/-- Model of `tokio_metrics::TaskMonitor`, reduced to the capability the
crate uses: `intervals()` produces the snapshot sequence. -/
structure TaskMonitor where
  intervals : ℕ → Option TaskMetrics

/-- Model of `tokio_metrics::RuntimeMonitor`, reduced to the capability the
crate uses: `intervals()` produces the snapshot sequence. -/
structure RuntimeMonitor where
  intervals : ℕ → Option RuntimeMetrics

/-- Model of `TokioTaskMetricsSet` (lib.rs lines 39-45): a display name and
the lock-guarded interval iterator. -/
structure TokioTaskMetricsSet where
  name : String
  monitor : IntervalCursor TaskMetrics

/-- Model of `TokioRuntimeMetricsSet` (lib.rs lines 136-143, feature `rt`). -/
structure TokioRuntimeMetricsSet where
  name : String
  monitor : IntervalCursor RuntimeMetrics

/-- The map-building body of `TokioTaskMetricsSet::get_all`
(lib.rs lines 72-130), transcribed insert by insert: the Metric Projector of
the task domain.  `format!("{}.field", self.name)` is `name ++ ".field"`;
`x as f64` is the cast `(x : ℚ)`; `d.as_millis() as f64` is
`(Duration.as_millis d : ℚ)`. -/
def taskMetricsMap (name : String) (metrics : TaskMetrics) : HMap :=
  let result : HMap := []
  let result := HMap.insert result (name ++ ".first_poll_count")
    (Metric.gauge ⟨(metrics.first_poll_count : ℚ)⟩)
  let result := HMap.insert result (name ++ ".instrumented_count")
    (Metric.gauge ⟨(metrics.instrumented_count : ℚ)⟩)
  let result := HMap.insert result (name ++ ".dropped_count")
    (Metric.gauge ⟨(metrics.dropped_count : ℚ)⟩)
  let result := HMap.insert result (name ++ ".total_poll_count")
    (Metric.gauge ⟨(metrics.total_poll_count : ℚ)⟩)
  let result := HMap.insert result (name ++ ".total_idled_count")
    (Metric.gauge ⟨(metrics.total_idled_count : ℚ)⟩)
  let result := HMap.insert result (name ++ ".total_scheduled_count")
    (Metric.gauge ⟨(metrics.total_scheduled_count : ℚ)⟩)
  let result := HMap.insert result (name ++ ".total_slow_poll_count")
    (Metric.gauge ⟨(metrics.total_slow_poll_count : ℚ)⟩)
  let result := HMap.insert result (name ++ ".total_fast_poll_count")
    (Metric.gauge ⟨(metrics.total_fast_poll_count : ℚ)⟩)
  let result := HMap.insert result (name ++ ".mean_poll_duration")
    (Metric.gauge ⟨(Duration.as_millis metrics.mean_poll_duration : ℚ)⟩)
  let result := HMap.insert result (name ++ ".mean_first_poll_delay")
    (Metric.gauge ⟨(Duration.as_millis metrics.mean_first_poll_delay : ℚ)⟩)
  let result := HMap.insert result (name ++ ".mean_scheduled_duration")
    (Metric.gauge ⟨(Duration.as_millis metrics.mean_scheduled_duration : ℚ)⟩)
  result

/-- Model of `TokioTaskMetricsSet::get_all` (lib.rs lines 69-131):
`self.monitor.lock().unwrap().next().unwrap()` advances the cursor by one
and panics (`none`) when the iterator is exhausted; otherwise the snapshot is
projected into a fresh map. -/
def TokioTaskMetricsSet.get_all (s : TokioTaskMetricsSet) :
    Option HMap × TokioTaskMetricsSet :=
  match IntervalCursor.next s.monitor with
  | (some metrics, c) => (some (taskMetricsMap s.name metrics), { s with monitor := c })
  | (none, c) => (none, { s with monitor := c })

/-- The map-building body of `TokioRuntimeMetricsSet::get_all`
(lib.rs lines 174-220): the Metric Projector of the scheduler domain. -/
def runtimeMetricsMap (name : String) (metrics : RuntimeMetrics) : HMap :=
  let result : HMap := []
  let result := HMap.insert result (name ++ ".total_polls_count")
    (Metric.gauge ⟨(metrics.total_polls_count : ℚ)⟩)
  let result := HMap.insert result (name ++ ".total_steal_count")
    (Metric.gauge ⟨(metrics.total_steal_count : ℚ)⟩)
  let result := HMap.insert result (name ++ ".total_park_count")
    (Metric.gauge ⟨(metrics.total_park_count : ℚ)⟩)
  let result := HMap.insert result (name ++ ".num_remote_schedules")
    (Metric.gauge ⟨(metrics.num_remote_schedules : ℚ)⟩)
  let result := HMap.insert result (name ++ ".total_local_schedule_count")
    (Metric.gauge ⟨(metrics.total_local_schedule_count : ℚ)⟩)
  let result := HMap.insert result (name ++ ".total_overflow_count")
    (Metric.gauge ⟨(metrics.total_overflow_count : ℚ)⟩)
  let result := HMap.insert result (name ++ ".total_noop_count")
    (Metric.gauge ⟨(metrics.total_noop_count : ℚ)⟩)
  let result := HMap.insert result (name ++ ".total_busy_duration")
    (Metric.gauge ⟨(Duration.as_millis metrics.total_busy_duration : ℚ)⟩)
  let result := HMap.insert result (name ++ ".busy_ratio")
    (Metric.gauge ⟨metrics.busy_ratio⟩)
  result

/-- Model of `TokioRuntimeMetricsSet::get_all` (lib.rs lines 171-221). -/
def TokioRuntimeMetricsSet.get_all (s : TokioRuntimeMetricsSet) :
    Option HMap × TokioRuntimeMetricsSet :=
  match IntervalCursor.next s.monitor with
  | (some metrics, c) => (some (runtimeMetricsMap s.name metrics), { s with monitor := c })
  | (none, c) => (none, { s with monitor := c })

/-- Builder error.  Modelled from the spec: the `derive_builder`-generated
`build()` (expanded from `#[derive(Builder)]` on lib.rs line 39, not present
as source text) reports an uninitialized required field; the spec names this
condition `MissingField`. -/
inductive BuilderError where
  | MissingField (field : String)
deriving DecidableEq, Repr

/-- Modelled from the spec: the builder generated by `#[derive(Builder)]` on
`TokioTaskMetricsSet` — one optional slot per required field, both starting
unset. -/
structure TokioTaskMetricsSetBuilder where
  name : Option String := none
  monitor : Option (IntervalCursor TaskMetrics) := none

/-- Modelled from the spec: the generated `name` setter
(`#[builder(setter(into))]`): store the supplied string. -/
def TokioTaskMetricsSetBuilder.setName (b : TokioTaskMetricsSetBuilder)
    (n : String) : TokioTaskMetricsSetBuilder :=
  { b with name := some n }

/-- Model of the custom setter `TokioTaskMetricsSetBuilder::monitor`
(lib.rs lines 62-65): wrap `monitor.intervals()` into a fresh lock-guarded
cursor starting at the beginning of the sequence. -/
def TokioTaskMetricsSetBuilder.setMonitor (b : TokioTaskMetricsSetBuilder)
    (monitor : TaskMonitor) : TokioTaskMetricsSetBuilder :=
  { b with monitor := some { seq := monitor.intervals, pos := 0 } }

/-- Modelled from the spec: the `derive_builder`-generated `build()` —
fails with `MissingField` when `name` or `monitor` was never set, otherwise
assembles the immutable adapter. -/
def TokioTaskMetricsSetBuilder.build (b : TokioTaskMetricsSetBuilder) :
    Except BuilderError TokioTaskMetricsSet :=
  match b.name, b.monitor with
  | some n, some c => Except.ok { name := n, monitor := c }
  | none, _ => Except.error (BuilderError.MissingField "name")
  | some _, none => Except.error (BuilderError.MissingField "monitor")

/-- Modelled from the spec: the builder generated by `#[derive(Builder)]` on
`TokioRuntimeMetricsSet`. -/
structure TokioRuntimeMetricsSetBuilder where
  name : Option String := none
  monitor : Option (IntervalCursor RuntimeMetrics) := none

/-- Modelled from the spec: the generated `name` setter of the runtime
builder. -/
def TokioRuntimeMetricsSetBuilder.setName (b : TokioRuntimeMetricsSetBuilder)
    (n : String) : TokioRuntimeMetricsSetBuilder :=
  { b with name := some n }

/-- Model of the custom setter `TokioRuntimeMetricsSetBuilder::monitor`
(lib.rs lines 146-151). -/
def TokioRuntimeMetricsSetBuilder.setMonitor (b : TokioRuntimeMetricsSetBuilder)
    (monitor : RuntimeMonitor) : TokioRuntimeMetricsSetBuilder :=
  { b with monitor := some { seq := monitor.intervals, pos := 0 } }

/-- Modelled from the spec: the `derive_builder`-generated `build()` of the
runtime builder. -/
def TokioRuntimeMetricsSetBuilder.build (b : TokioRuntimeMetricsSetBuilder) :
    Except BuilderError TokioRuntimeMetricsSet :=
  match b.name, b.monitor with
  | some n, some c => Except.ok { name := n, monitor := c }
  | none, _ => Except.error (BuilderError.MissingField "name")
  | some _, none => Except.error (BuilderError.MissingField "monitor")

/-- The sequence of results of repeated `get_all` calls on one task adapter:
`callsFrom s n` is the result of the `n`-th call (0-indexed), threading the
adapter state from call to call. -/
def TokioTaskMetricsSet.callsFrom (s : TokioTaskMetricsSet) :
    ℕ → Option HMap × TokioTaskMetricsSet
  | 0 => s.get_all
  | n + 1 => TokioTaskMetricsSet.callsFrom (s.get_all).2 n

/-- The sequence of results of repeated `get_all` calls on one runtime
adapter. -/
def TokioRuntimeMetricsSet.callsFrom (s : TokioRuntimeMetricsSet) :
    ℕ → Option HMap × TokioRuntimeMetricsSet
  | 0 => s.get_all
  | n + 1 => TokioRuntimeMetricsSet.callsFrom (s.get_all).2 n

/-- Results of `n` serialized `get_all` calls against one shared task adapter,
in the order the lock admitted the callers, together with the final shared
state. -/
def TokioTaskMetricsSet.runCalls (s : TokioTaskMetricsSet) :
    ℕ → List (Option HMap) × TokioTaskMetricsSet
  | 0 => ([], s)
  | n + 1 =>
    let r := s.get_all
    let rest := TokioTaskMetricsSet.runCalls r.2 n
    (r.1 :: rest.1, rest.2)

/-- Concrete task snapshot used to instantiate proved theorems. -/
def sampleTask : TaskMetrics :=
  ⟨1, 2, 3, 4, 5, 6, 7, 8, 1500000, 2500000, 3500000⟩

/-- Concrete scheduler snapshot used to instantiate proved theorems. -/
def sampleRuntime : RuntimeMetrics :=
  ⟨1, 2, 3, 4, 5, 6, 7, 1500000, 1 / 2⟩

/-- Two distinct task snapshots whose only difference lies below one
millisecond of the mean poll duration (1500 microseconds vs 1400
microseconds): the projector truncates both to 1 ms. -/
def cexTaskA : TaskMetrics := ⟨0, 0, 0, 0, 0, 0, 0, 0, 1500000, 0, 0⟩

/-- Companion snapshot to `cexTaskA`, distinct from it but projecting to the
identical mapping. -/
def cexTaskB : TaskMetrics := ⟨0, 0, 0, 0, 0, 0, 0, 0, 1400000, 0, 0⟩

/-- A task adapter over a stub source yielding `cexTaskA` then `cexTaskB`. -/
def cexTaskSet : TokioTaskMetricsSet :=
  ⟨"t", ⟨fun i => if i = 0 then some cexTaskA else
    if i = 1 then some cexTaskB else none, 0⟩⟩

/-- Task snapshot differing from `c7wB` in a raw counter. -/
def c7wA : TaskMetrics := ⟨1, 0, 0, 0, 0, 0, 0, 0, 0, 0, 0⟩

/-- Task snapshot differing from `c7wA` in a raw counter. -/
def c7wB : TaskMetrics := ⟨2, 0, 0, 0, 0, 0, 0, 0, 0, 0, 0⟩

/-- A task adapter over a stub source yielding `c7wA` then `c7wB`. -/
def c7wSet : TokioTaskMetricsSet :=
  ⟨"t", ⟨fun i => if i = 0 then some c7wA else
    if i = 1 then some c7wB else none, 0⟩⟩

section Helpers

/-- Appending on the left of a `String` is cancellable. -/
lemma string_append_cancel {a s t : String} (h : a ++ s = a ++ t) : s = t := by
  have hd : a.data ++ s.data = a.data ++ t.data := by
    have := congrArg String.data h
    simpa using this
  have hdt : s.data = t.data := List.append_cancel_left hd
  cases s; cases t; exact congrArg String.mk (by simpa using hdt)

/-- Boolean equality of strings sharing a left part reduces to boolean
equality of the right parts. -/
@[simp] lemma string_append_beq (a s t : String) :
    (a ++ s == a ++ t) = (s == t) := by
  by_cases h : s = t
  · simp [h]
  · have hne : a ++ s ≠ a ++ t := fun he => h (string_append_cancel he)
    simp [h, hne]

lemma task_get_all_fst (s : TokioTaskMetricsSet) :
    (s.get_all).1 = (s.monitor.seq s.monitor.pos).map (taskMetricsMap s.name) := by
  cases h : s.monitor.seq s.monitor.pos <;>
    simp [TokioTaskMetricsSet.get_all, IntervalCursor.next, h]

lemma task_get_all_snd (s : TokioTaskMetricsSet) :
    (s.get_all).2 =
      { s with monitor := { s.monitor with pos := s.monitor.pos + 1 } } := by
  cases h : s.monitor.seq s.monitor.pos <;>
    simp [TokioTaskMetricsSet.get_all, IntervalCursor.next, h]

lemma runtime_get_all_fst (s : TokioRuntimeMetricsSet) :
    (s.get_all).1 = (s.monitor.seq s.monitor.pos).map (runtimeMetricsMap s.name) := by
  cases h : s.monitor.seq s.monitor.pos <;>
    simp [TokioRuntimeMetricsSet.get_all, IntervalCursor.next, h]

lemma runtime_get_all_snd (s : TokioRuntimeMetricsSet) :
    (s.get_all).2 =
      { s with monitor := { s.monitor with pos := s.monitor.pos + 1 } } := by
  cases h : s.monitor.seq s.monitor.pos <;>
    simp [TokioRuntimeMetricsSet.get_all, IntervalCursor.next, h]

/-- The task projector, written out as the explicit association list in
insertion order (all eleven keys are distinct, so every insert appends). -/
lemma taskMetricsMap_eq (name : String) (m : TaskMetrics) :
    taskMetricsMap name m =
      [(name ++ ".first_poll_count", Metric.gauge ⟨(m.first_poll_count : ℚ)⟩),
       (name ++ ".instrumented_count", Metric.gauge ⟨(m.instrumented_count : ℚ)⟩),
       (name ++ ".dropped_count", Metric.gauge ⟨(m.dropped_count : ℚ)⟩),
       (name ++ ".total_poll_count", Metric.gauge ⟨(m.total_poll_count : ℚ)⟩),
       (name ++ ".total_idled_count", Metric.gauge ⟨(m.total_idled_count : ℚ)⟩),
       (name ++ ".total_scheduled_count", Metric.gauge ⟨(m.total_scheduled_count : ℚ)⟩),
       (name ++ ".total_slow_poll_count", Metric.gauge ⟨(m.total_slow_poll_count : ℚ)⟩),
       (name ++ ".total_fast_poll_count", Metric.gauge ⟨(m.total_fast_poll_count : ℚ)⟩),
       (name ++ ".mean_poll_duration",
         Metric.gauge ⟨(Duration.as_millis m.mean_poll_duration : ℚ)⟩),
       (name ++ ".mean_first_poll_delay",
         Metric.gauge ⟨(Duration.as_millis m.mean_first_poll_delay : ℚ)⟩),
       (name ++ ".mean_scheduled_duration",
         Metric.gauge ⟨(Duration.as_millis m.mean_scheduled_duration : ℚ)⟩)] := by
  simp [taskMetricsMap, HMap.insert]

/-- The runtime projector, written out as the explicit association list in
insertion order (all nine keys are distinct, so every insert appends). -/
lemma runtimeMetricsMap_eq (name : String) (m : RuntimeMetrics) :
    runtimeMetricsMap name m =
      [(name ++ ".total_polls_count", Metric.gauge ⟨(m.total_polls_count : ℚ)⟩),
       (name ++ ".total_steal_count", Metric.gauge ⟨(m.total_steal_count : ℚ)⟩),
       (name ++ ".total_park_count", Metric.gauge ⟨(m.total_park_count : ℚ)⟩),
       (name ++ ".num_remote_schedules", Metric.gauge ⟨(m.num_remote_schedules : ℚ)⟩),
       (name ++ ".total_local_schedule_count",
         Metric.gauge ⟨(m.total_local_schedule_count : ℚ)⟩),
       (name ++ ".total_overflow_count", Metric.gauge ⟨(m.total_overflow_count : ℚ)⟩),
       (name ++ ".total_noop_count", Metric.gauge ⟨(m.total_noop_count : ℚ)⟩),
       (name ++ ".total_busy_duration",
         Metric.gauge ⟨(Duration.as_millis m.total_busy_duration : ℚ)⟩),
       (name ++ ".busy_ratio", Metric.gauge ⟨m.busy_ratio⟩)] := by
  simp [runtimeMetricsMap, HMap.insert]

/-- Explicit description of `n` serialized `get_all` calls on a task adapter
given by its components: the results are the projections of the elements at
positions `p, p+1, …, p+n-1`, in order, and the cursor ends at `p + n`. -/
lemma runCalls_spec (nm : String) (f : ℕ → Option TaskMetrics) (p n : ℕ) :
    ((⟨nm, ⟨f, p⟩⟩ : TokioTaskMetricsSet).runCalls n).1 =
      (List.range' p n).map (fun i => (f i).map (taskMetricsMap nm)) ∧
    ((⟨nm, ⟨f, p⟩⟩ : TokioTaskMetricsSet).runCalls n).2 = ⟨nm, ⟨f, p + n⟩⟩ := by
  induction n generalizing p with
  | zero => simp [TokioTaskMetricsSet.runCalls]
  | succ n ih =>
    have hga2 : ((⟨nm, ⟨f, p⟩⟩ : TokioTaskMetricsSet).get_all).2 =
        (⟨nm, ⟨f, p + 1⟩⟩ : TokioTaskMetricsSet) := by
      rw [task_get_all_snd]
    have hga1 : ((⟨nm, ⟨f, p⟩⟩ : TokioTaskMetricsSet).get_all).1 =
        (f p).map (taskMetricsMap nm) := by
      rw [task_get_all_fst]
    obtain ⟨ih1, ih2⟩ := ih (p + 1)
    constructor
    · show ((⟨nm, ⟨f, p⟩⟩ : TokioTaskMetricsSet).get_all).1 ::
        (TokioTaskMetricsSet.runCalls ((⟨nm, ⟨f, p⟩⟩ :
          TokioTaskMetricsSet).get_all).2 n).1 = _
      rw [hga1, hga2, ih1, List.range']
      simp
    · show (TokioTaskMetricsSet.runCalls ((⟨nm, ⟨f, p⟩⟩ :
          TokioTaskMetricsSet).get_all).2 n).2 = _
      rw [hga2, ih2]
      congr 2
      omega

end Helpers

/-- C1: for every adapter (task and runtime) and every underlying snapshot
sequence, the n-th `get_all` call returns exactly the projection of the n-th
element of the sequence (counting from the cursor's start position): each
call pulls one element from the iterator and forwards it unchanged to the
projector. -/
theorem c1_nth_call_projects_nth_element (ts : TokioTaskMetricsSet)
    (rs : TokioRuntimeMetricsSet) (n : ℕ) :
    (ts.callsFrom n).1 =
      (ts.monitor.seq (ts.monitor.pos + n)).map (taskMetricsMap ts.name) ∧
    (rs.callsFrom n).1 =
      (rs.monitor.seq (rs.monitor.pos + n)).map (runtimeMetricsMap rs.name) := by
  constructor
  · induction n generalizing ts with
    | zero => simpa using task_get_all_fst ts
    | succ n ih =>
      rw [TokioTaskMetricsSet.callsFrom, task_get_all_snd]
      rw [show ts.monitor.pos + (n + 1) = ts.monitor.pos + 1 + n by omega]
      exact ih _
  · induction n generalizing rs with
    | zero => simpa using runtime_get_all_fst rs
    | succ n ih =>
      rw [TokioRuntimeMetricsSet.callsFrom, runtime_get_all_snd]
      rw [show rs.monitor.pos + (n + 1) = rs.monitor.pos + 1 + n by omega]
      exact ih _

/-- C2: for every task snapshot and adapter name, the projected mapping has
exactly the 11 enumerated keys (8 raw counters, 3 derived mean durations),
each of the form name.field, with no key repeated; for every scheduler
snapshot it has exactly the 9 enumerated keys (7 raw counters,
total_busy_duration, busy_ratio). -/
theorem c2_field_completeness (name : String) (m : TaskMetrics)
    (r : RuntimeMetrics) :
    (taskMetricsMap name m).map Prod.fst =
      [name ++ ".first_poll_count", name ++ ".instrumented_count",
       name ++ ".dropped_count", name ++ ".total_poll_count",
       name ++ ".total_idled_count", name ++ ".total_scheduled_count",
       name ++ ".total_slow_poll_count", name ++ ".total_fast_poll_count",
       name ++ ".mean_poll_duration", name ++ ".mean_first_poll_delay",
       name ++ ".mean_scheduled_duration"] ∧
    ((taskMetricsMap name m).map Prod.fst).Nodup ∧
    (runtimeMetricsMap name r).map Prod.fst =
      [name ++ ".total_polls_count", name ++ ".total_steal_count",
       name ++ ".total_park_count", name ++ ".num_remote_schedules",
       name ++ ".total_local_schedule_count", name ++ ".total_overflow_count",
       name ++ ".total_noop_count", name ++ ".total_busy_duration",
       name ++ ".busy_ratio"] ∧
    ((runtimeMetricsMap name r).map Prod.fst).Nodup := by
  have hinj : Function.Injective (fun s => name ++ s) := by
    intro a b h
    exact string_append_cancel h
  refine ⟨by simp [taskMetricsMap_eq], ?_, by simp [runtimeMetricsMap_eq], ?_⟩
  · have : (taskMetricsMap name m).map Prod.fst =
        List.map (fun s => name ++ s)
          [".first_poll_count", ".instrumented_count", ".dropped_count",
           ".total_poll_count", ".total_idled_count", ".total_scheduled_count",
           ".total_slow_poll_count", ".total_fast_poll_count",
           ".mean_poll_duration", ".mean_first_poll_delay",
           ".mean_scheduled_duration"] := by
      simp [taskMetricsMap_eq]
    rw [this]
    exact (List.nodup_map_iff hinj).mpr (by decide)
  · have : (runtimeMetricsMap name r).map Prod.fst =
        List.map (fun s => name ++ s)
          [".total_polls_count", ".total_steal_count", ".total_park_count",
           ".num_remote_schedules", ".total_local_schedule_count",
           ".total_overflow_count", ".total_noop_count",
           ".total_busy_duration", ".busy_ratio"] := by
      simp [runtimeMetricsMap_eq]
    rw [this]
    exact (List.nodup_map_iff hinj).mpr (by decide)

/-- C3: every derived duration field is projected as the whole number of
milliseconds of the duration, sub-millisecond precision truncated by integer
division (not rounded), then widened to the floating-point gauge value; in
particular a mean poll duration of 1500 microseconds (1500000 ns) projects
to exactly 1. -/
theorem c3_duration_truncation (name : String) (m : TaskMetrics)
    (r : RuntimeMetrics) :
    HMap.get (taskMetricsMap name m) (name ++ ".mean_poll_duration") =
      some (Metric.gauge ⟨((m.mean_poll_duration / 1000000 : ℕ) : ℚ)⟩) ∧
    HMap.get (taskMetricsMap name m) (name ++ ".mean_first_poll_delay") =
      some (Metric.gauge ⟨((m.mean_first_poll_delay / 1000000 : ℕ) : ℚ)⟩) ∧
    HMap.get (taskMetricsMap name m) (name ++ ".mean_scheduled_duration") =
      some (Metric.gauge ⟨((m.mean_scheduled_duration / 1000000 : ℕ) : ℚ)⟩) ∧
    HMap.get (runtimeMetricsMap name r) (name ++ ".total_busy_duration") =
      some (Metric.gauge ⟨((r.total_busy_duration / 1000000 : ℕ) : ℚ)⟩) ∧
    HMap.get (taskMetricsMap "t" { m with mean_poll_duration := 1500000 })
      ("t" ++ ".mean_poll_duration") = some (Metric.gauge ⟨(1 : ℚ)⟩) := by
  rw [taskMetricsMap_eq, runtimeMetricsMap_eq, taskMetricsMap_eq]
  refine ⟨?_, ?_, ?_, ?_, ?_⟩ <;>
    · simp only [HMap.get, string_append_beq, beq_iff_eq]
      simp [Duration.as_millis]

/-- C4: when the underlying snapshot iterator yields no further element at
the cursor's position, `get_all` aborts the collection cycle (the `unwrap`
panic, modelled as `none`) and returns no mapping at all — in particular no
mapping built from a stale or default snapshot. -/
theorem c4_source_exhausted_fails_loudly (ts : TokioTaskMetricsSet)
    (rs : TokioRuntimeMetricsSet)
    (ht : ts.monitor.seq ts.monitor.pos = none)
    (hr : rs.monitor.seq rs.monitor.pos = none) :
    (ts.get_all).1 = none ∧ (rs.get_all).1 = none := by
  simp [task_get_all_fst, runtime_get_all_fst, ht, hr]

/-- C4 witness: a concrete task adapter and runtime adapter over an already
exhausted sequence both abort their collection call. -/
theorem c4_witness :
    ((⟨"t", ⟨fun _ => none, 0⟩⟩ : TokioTaskMetricsSet).get_all).1 = none ∧
    ((⟨"r", ⟨fun _ => none, 0⟩⟩ : TokioRuntimeMetricsSet).get_all).1 = none :=
  c4_source_exhausted_fails_loudly ⟨"t", ⟨fun _ => none, 0⟩⟩
    ⟨"r", ⟨fun _ => none, 0⟩⟩ rfl rfl

/-- C8: the value projected under the busy_ratio key is the snapshot's busy
ratio exactly as supplied, with no rescaling or unit conversion. -/
theorem c8_busy_ratio_taken_as_is (name : String) (r : RuntimeMetrics) :
    HMap.get (runtimeMetricsMap name r) (name ++ ".busy_ratio") =
      some (Metric.gauge ⟨r.busy_ratio⟩) := by
  rw [runtimeMetricsMap_eq]
  simp [HMap.get]

/-- C5: for every builder (task or runtime) in which the name field or the
monitor field has not been set, `build()` fails with a `MissingField` error
and constructs no adapter. -/
theorem c5_build_missing_field (bt : TokioTaskMetricsSetBuilder)
    (br : TokioRuntimeMetricsSetBuilder)
    (ht : bt.name = none ∨ bt.monitor = none)
    (hr : br.name = none ∨ br.monitor = none) :
    (∃ f, bt.build = Except.error (BuilderError.MissingField f)) ∧
    (∃ f, br.build = Except.error (BuilderError.MissingField f)) := by
  obtain ⟨bn, bm⟩ := bt
  obtain ⟨cn, cm⟩ := br
  constructor
  · cases bn <;> cases bm <;>
      simp_all [TokioTaskMetricsSetBuilder.build]
  · cases cn <;> cases cm <;>
      simp_all [TokioRuntimeMetricsSetBuilder.build]

/-- C5 witness: the all-unset builders of both families fail with
`MissingField`. -/
theorem c5_witness :
    (∃ f, ({} : TokioTaskMetricsSetBuilder).build =
      Except.error (BuilderError.MissingField f)) ∧
    (∃ f, ({} : TokioRuntimeMetricsSetBuilder).build =
      Except.error (BuilderError.MissingField f)) :=
  c5_build_missing_field {} {} (Or.inl rfl) (Or.inl rfl)

/-- C6: for every name string and every monitor reference, building an
adapter (task or runtime) with both fields set succeeds, and the adapter's
name accessor returns exactly the supplied name. -/
theorem c6_build_ok_name_roundtrip (n m : String) (mt : TaskMonitor)
    (mr : RuntimeMonitor) :
    ((TokioTaskMetricsSetBuilder.setMonitor
        (TokioTaskMetricsSetBuilder.setName {} n) mt).build =
      Except.ok { name := n, monitor := { seq := mt.intervals, pos := 0 } }) ∧
    (Except.map TokioTaskMetricsSet.name
      ((TokioTaskMetricsSetBuilder.setMonitor
        (TokioTaskMetricsSetBuilder.setName {} n) mt).build) = Except.ok n) ∧
    ((TokioRuntimeMetricsSetBuilder.setMonitor
        (TokioRuntimeMetricsSetBuilder.setName {} m) mr).build =
      Except.ok { name := m, monitor := { seq := mr.intervals, pos := 0 } }) ∧
    (Except.map TokioRuntimeMetricsSet.name
      ((TokioRuntimeMetricsSetBuilder.setMonitor
        (TokioRuntimeMetricsSetBuilder.setName {} m) mr).build) = Except.ok m) :=
  ⟨rfl, rfl, rfl, rfl⟩

/-- C10: the projection performed by one `get_all` call is deterministic —
its result depends on nothing but the adapter name and the snapshot the
cursor currently points at; two adapters agreeing on those produce the same
keys and the same gauge value for each key, whatever else (cursor position,
rest of the sequence) differs. -/
theorem c10_projection_deterministic (s1 s2 : TokioTaskMetricsSet)
    (r1 r2 : TokioRuntimeMetricsSet)
    (hname : s1.name = s2.name)
    (hsnap : s1.monitor.seq s1.monitor.pos = s2.monitor.seq s2.monitor.pos)
    (hname2 : r1.name = r2.name)
    (hsnap2 : r1.monitor.seq r1.monitor.pos = r2.monitor.seq r2.monitor.pos) :
    (s1.get_all).1 = (s2.get_all).1 ∧ (r1.get_all).1 = (r2.get_all).1 := by
  rw [task_get_all_fst, task_get_all_fst, runtime_get_all_fst,
    runtime_get_all_fst, hname, hsnap, hname2, hsnap2]
  exact ⟨rfl, rfl⟩

/-- C10 witness: two task adapters and two runtime adapters with the same
name and the same current snapshot but different positions and different
sequence tails return identical mappings. -/
theorem c10_witness :
    ((⟨"t", ⟨fun _ => some sampleTask, 0⟩⟩ : TokioTaskMetricsSet).get_all).1 =
      ((⟨"t", ⟨fun i => if i = 5 then some sampleTask else none, 5⟩⟩ :
        TokioTaskMetricsSet).get_all).1 ∧
    ((⟨"r", ⟨fun _ => some sampleRuntime, 0⟩⟩ :
        TokioRuntimeMetricsSet).get_all).1 =
      ((⟨"r", ⟨fun i => if i = 5 then some sampleRuntime else none, 5⟩⟩ :
        TokioRuntimeMetricsSet).get_all).1 :=
  c10_projection_deterministic
    ⟨"t", ⟨fun _ => some sampleTask, 0⟩⟩
    ⟨"t", ⟨fun i => if i = 5 then some sampleTask else none, 5⟩⟩
    ⟨"r", ⟨fun _ => some sampleRuntime, 0⟩⟩
    ⟨"r", ⟨fun i => if i = 5 then some sampleRuntime else none, 5⟩⟩
    rfl rfl rfl rfl

/-- C7 counterexample: the claim "two consecutive collect calls never return
identical mappings when consecutive snapshots are distinct" is false —
`cexTaskA` and `cexTaskB` are distinct snapshots (mean poll duration 1500 µs
vs 1400 µs), yet both project to the identical mapping because millisecond
truncation erases the difference, so the two consecutive calls on
`cexTaskSet` return identical mappings. -/
theorem c7_counterexample :
    cexTaskA ≠ cexTaskB ∧
    (cexTaskSet.get_all).1 = some (taskMetricsMap "t" cexTaskA) ∧
    ((cexTaskSet.get_all).2.get_all).1 = some (taskMetricsMap "t" cexTaskB) ∧
    taskMetricsMap "t" cexTaskA = taskMetricsMap "t" cexTaskB :=
  ⟨by decide, rfl, rfl, by decide⟩

/-- C7 (amended): two consecutive `get_all` calls always consume two
consecutive, distinct elements of the sequence — the cursor advances by one
per call and never re-reads the element it already delivered — and the two
returned mappings are not identical whenever the two snapshots differ
observably under the projection: in some raw counter, or in some mean
duration at whole-millisecond granularity.  (Distinct snapshots differing
only below one millisecond of a duration project to identical mappings; see
the counterexample.) -/
theorem c7_cursor_advances_distinct_mappings (s : TokioTaskMetricsSet)
    (m1 m2 : TaskMetrics)
    (h1 : s.monitor.seq s.monitor.pos = some m1)
    (h2 : s.monitor.seq (s.monitor.pos + 1) = some m2)
    (hdiff : m1.first_poll_count ≠ m2.first_poll_count ∨
      m1.instrumented_count ≠ m2.instrumented_count ∨
      m1.dropped_count ≠ m2.dropped_count ∨
      m1.total_poll_count ≠ m2.total_poll_count ∨
      m1.total_idled_count ≠ m2.total_idled_count ∨
      m1.total_scheduled_count ≠ m2.total_scheduled_count ∨
      m1.total_slow_poll_count ≠ m2.total_slow_poll_count ∨
      m1.total_fast_poll_count ≠ m2.total_fast_poll_count ∨
      Duration.as_millis m1.mean_poll_duration ≠
        Duration.as_millis m2.mean_poll_duration ∨
      Duration.as_millis m1.mean_first_poll_delay ≠
        Duration.as_millis m2.mean_first_poll_delay ∨
      Duration.as_millis m1.mean_scheduled_duration ≠
        Duration.as_millis m2.mean_scheduled_duration) :
    (s.get_all).2.monitor.pos = s.monitor.pos + 1 ∧
    (s.get_all).1 = some (taskMetricsMap s.name m1) ∧
    ((s.get_all).2.get_all).1 = some (taskMetricsMap s.name m2) ∧
    (s.get_all).1 ≠ ((s.get_all).2.get_all).1 := by
  have hpos : (s.get_all).2 =
      { s with monitor := { s.monitor with pos := s.monitor.pos + 1 } } :=
    task_get_all_snd s
  have hfst1 : (s.get_all).1 = some (taskMetricsMap s.name m1) := by
    rw [task_get_all_fst, h1]
    rfl
  have hfst2 : ((s.get_all).2.get_all).1 = some (taskMetricsMap s.name m2) := by
    rw [hpos, task_get_all_fst]
    simp [h2]
  have hmapne : taskMetricsMap s.name m1 ≠ taskMetricsMap s.name m2 := by
    intro he
    rw [taskMetricsMap_eq, taskMetricsMap_eq] at he
    simp only [List.cons.injEq, Prod.mk.injEq, Metric.gauge.injEq,
      StaticGauge.mk.injEq, Nat.cast_inj, and_true, true_and] at he
    tauto
  refine ⟨by rw [hpos], hfst1, hfst2, ?_⟩
  rw [hfst1, hfst2]
  simp only [ne_eq, Option.some.injEq]
  exact hmapne

/-- C7 witness: on a stub source yielding `c7wA` then `c7wB` (which differ in
the first raw counter) the two consecutive calls advance the cursor and
return distinct mappings. -/
theorem c7_witness :
    (c7wSet.get_all).2.monitor.pos = c7wSet.monitor.pos + 1 ∧
    (c7wSet.get_all).1 = some (taskMetricsMap c7wSet.name c7wA) ∧
    ((c7wSet.get_all).2.get_all).1 = some (taskMetricsMap c7wSet.name c7wB) ∧
    (c7wSet.get_all).1 ≠ ((c7wSet.get_all).2.get_all).1 :=
  c7_cursor_advances_distinct_mappings c7wSet c7wA c7wB rfl rfl
    (Or.inl (by decide))

/-- C9: with the mutex making each cursor advance atomic, any N concurrent
`get_all` callers on one shared task adapter are admitted in some serial
order; `runCalls` models that order, and the callers collectively receive
the projections of exactly the first N elements of the sequence (positions
pos, pos+1, …, pos+N−1), in admission order — each element delivered to
exactly one caller, none duplicated, none skipped — leaving the cursor N
positions further. -/
theorem c9_serialized_callers_partition_sequence (s : TokioTaskMetricsSet)
    (n : ℕ) :
    (s.runCalls n).1 =
      (List.range' s.monitor.pos n).map
        (fun i => (s.monitor.seq i).map (taskMetricsMap s.name)) ∧
    (s.runCalls n).2.monitor.pos = s.monitor.pos + n := by
  obtain ⟨nm, f, p⟩ := s
  obtain ⟨h1, h2⟩ := runCalls_spec nm f p n
  exact ⟨h1, by rw [h2]⟩
